import Mathlib

/-
Shallow embedding of the workflow-orchestration core of the myclaudekit
repository (WorkflowRunner, PromptManager, the token-accounting part of
StateManager, and the static agent registry), with theorems checking the
specification's claims about it.

Modelling conventions:
* TypeScript string-keyed objects and Maps are modelled as insertion-ordered
  association lists with unique keys (`objGet` / `objSet`).
* `Date.now()` is modelled by an explicit `now : Int` parameter.
* The external worker contract (`AgentRunner.run`, which spawns the CLI) is a
  parameter `wk : Worker`; the list of prompts handed to it is returned as an
  explicit trace so that "the worker was invoked" is observable.
* JavaScript `a || b` on strings/optionals is `jsOr` (empty string counts as
  falsy); rationals stand in for JavaScript numbers where fractions occur.
-/

namespace ClaudeKit

/-- JS `a || b` for an optional string: `undefined` and `""` fall back. -/
def jsOr (o : Option String) (d : String) : String :=
  match o with
  | some s => if s = "" then d else s
  | none => d

/-- JS template interpolation of a possibly-undefined string. -/
def jsShow (o : Option String) : String :=
  match o with
  | some s => s
  | none => "undefined"

/-- Embedding of `Array.prototype.join('\n')` / `parts.join('\n')`. -/
def joinNL : List String → String
  | [] => ""
  | [s] => s
  | s :: rest => s ++ "\n" ++ joinNL rest

/-- Read a key from a JS object / Map (insertion-ordered association list). -/
def objGet {α : Type} : List (String × α) → String → Option α
  | [], _ => none
  | p :: rest, k => if p.1 = k then some p.2 else objGet rest k

/-- Write a key in a JS object / Map: update in place if present, append if absent. -/
def objSet {α : Type} : List (String × α) → String → α → List (String × α)
  | [], k, v => [(k, v)]
  | p :: rest, k, v => if p.1 = k then (k, v) :: rest else p :: objSet rest k v

-- ========================= Data model (src/types/index.ts) =========================

inductive ModelTier
  | fast | balanced | powerful
deriving DecidableEq

inductive ResponseMode
  | concise | balanced | detailed
deriving DecidableEq

inductive AgentSource
  | file | builtin
deriving DecidableEq

structure AgentExample where
  input : String
  output : String
deriving DecidableEq

structure TokenUsage where
  inputTokens : Nat
  outputTokens : Nat
  totalTokens : Nat
  cost : Option ℚ := none
deriving DecidableEq

structure AgentConfig where
  id : String
  name : String
  icon : String
  description : String
  systemPrompt : String
  capabilities : List String
  model : Option String := none
  recommendedModel : Option ModelTier := none
  responseMode : Option ResponseMode := none
  maxOutputTokens : Option Nat := none
  role : Option String := none
  «example» : Option AgentExample := none
  source : Option AgentSource := none
deriving DecidableEq

inductive AgentStatus
  | idle | running | completed | error | stopped
deriving DecidableEq

structure AgentState where
  id : String
  status : AgentStatus
  output : String
  error : Option String := none
  startTime : Option Int := none
  endTime : Option Int := none
  retryCount : Nat
  tokenUsage : Option TokenUsage := none
deriving DecidableEq

inductive WorkflowPattern
  | sequential | parallel | fanOut
deriving DecidableEq

structure WorkflowStep where
  agentId : String
  input : Option String := none
deriving DecidableEq

structure Workflow where
  id : String
  name : String
  pattern : WorkflowPattern
  steps : List WorkflowStep
deriving DecidableEq

inductive WorkflowStatus
  | idle | running | completed | error
deriving DecidableEq

structure WorkflowState where
  id : String
  status : WorkflowStatus
  currentStep : Nat
  agentStates : List (String × AgentState)
  startTime : Option Int := none
  endTime : Option Int := none
deriving DecidableEq

structure RunnerOptions where
  cliPath : String
  maxRetries : Nat
  model : String
  workingDirectory : String
deriving DecidableEq

structure RunResult where
  success : Bool
  output : String
  error : Option String := none
  exitCode : Option Int := none
  tokenUsage : Option TokenUsage := none
  sessionId : Option String := none
deriving DecidableEq

-- ================= Agent registry (src/agents/agents.config.ts, final version) =================

def plannerAgent : AgentConfig :=
  { id := "planner", name := "Planner", icon := "🧠"
    description := "Creates detailed implementation plans and breaks down complex tasks"
    recommendedModel := some .balanced, responseMode := some .balanced
    capabilities := ["Analyze requirements and scope", "Break down tasks into actionable steps",
      "Identify dependencies and risks", "Create timeline estimates", "Define success criteria"]
    systemPrompt := "You are a strategic planner. Your job is to:\n1. Understand the user\x27s goal completely\n2. Break it down into clear, actionable steps\n3. Identify potential blockers and dependencies\n4. Suggest the optimal order of execution\n5. Define what \"done\" looks like for each step\n\nOutput a structured plan in markdown format with numbered steps." }

def scoutAgent : AgentConfig :=
  { id := "scout", name := "Scout", icon := "🔍"
    description := "Explores and maps codebase structure, finds relevant files"
    recommendedModel := some .fast, responseMode := some .concise
    capabilities := ["Navigate directory structures", "Find relevant files and patterns",
      "Understand project architecture", "Identify dependencies", "Map code relationships"]
    systemPrompt := "You are a codebase explorer. Your job is to:\n1. Search and navigate the codebase efficiently\n2. Find files relevant to the task at hand\n3. Understand the project structure and patterns\n4. Identify key files and their relationships\n5. Report findings in a clear, organized manner\n\nUse glob patterns and grep to find what you need. Always explain what you found." }

def researcherAgent : AgentConfig :=
  { id := "researcher", name := "Researcher", icon := "📚"
    description := "Gathers information, documentation, and best practices"
    recommendedModel := some .fast, responseMode := some .balanced
    capabilities := ["Search for documentation", "Find best practices", "Research libraries and APIs",
      "Summarize technical concepts", "Compare alternatives"]
    systemPrompt := "You are a technical researcher. Your job is to:\n1. Gather relevant information about technologies, libraries, and patterns\n2. Find and summarize documentation\n3. Research best practices and common solutions\n4. Compare alternatives when applicable\n5. Provide actionable recommendations\n\nAlways cite sources and explain the reasoning behind recommendations." }

def implementerAgent : AgentConfig :=
  { id := "implementer", name := "Implementer", icon := "💻"
    description := "Writes production-quality code following best practices"
    recommendedModel := some .balanced, responseMode := some .balanced
    capabilities := ["Write clean, maintainable code", "Follow project conventions",
      "Implement features from specs", "Handle edge cases", "Add appropriate error handling"]
    systemPrompt := "You are a senior developer. Your job is to:\n1. Write clean, production-ready code\n2. Follow the project\x27s existing patterns and conventions\n3. Handle edge cases and errors appropriately\n4. Keep code simple and maintainable\n5. Only implement what\x27s requested - no over-engineering\n\nAlways provide complete, working code that can be directly used." }

def codeReviewerAgent : AgentConfig :=
  { id := "code-reviewer", name := "Code Reviewer", icon := "🔬"
    description := "Reviews code for quality, bugs, and best practices"
    recommendedModel := some .balanced, responseMode := some .concise
    capabilities := ["Identify bugs and issues", "Check code quality", "Suggest improvements",
      "Verify best practices", "Assess maintainability"]
    systemPrompt := "You are a code reviewer. Your job is to:\n1. Review code for bugs, issues, and potential problems\n2. Check adherence to best practices\n3. Suggest concrete improvements\n4. Identify security concerns\n5. Assess readability and maintainability\n\nProvide specific, actionable feedback with examples of how to improve." }

def securityAuditorAgent : AgentConfig :=
  { id := "security-auditor", name := "Security Auditor", icon := "🔒"
    description := "Analyzes code for security vulnerabilities and risks"
    recommendedModel := some .powerful, responseMode := some .detailed
    capabilities := ["Find security vulnerabilities", "Check for common exploits (OWASP Top 10)",
      "Identify sensitive data exposure", "Review authentication/authorization", "Suggest security improvements"]
    systemPrompt := "You are a security expert. Your job is to:\n1. Scan code for security vulnerabilities\n2. Check for OWASP Top 10 issues\n3. Identify exposed secrets or sensitive data\n4. Review authentication and authorization logic\n5. Suggest security improvements\n\nPrioritize findings by severity and provide clear remediation steps." }

def uiUxDesignerAgent : AgentConfig :=
  { id := "ui-ux-designer", name := "UI/UX Designer", icon := "🎨"
    description := "Designs user interfaces and improves user experience"
    recommendedModel := some .balanced, responseMode := some .balanced
    capabilities := ["Design user interfaces", "Improve UX patterns", "Create component layouts",
      "Suggest accessibility improvements", "Define design systems"]
    systemPrompt := "You are a UI/UX designer. Your job is to:\n1. Design clean, intuitive user interfaces\n2. Improve user experience and flow\n3. Ensure accessibility compliance\n4. Create consistent design patterns\n5. Provide CSS/styling code when needed\n\nFocus on usability, accessibility, and visual clarity." }

def databaseAdminAgent : AgentConfig :=
  { id := "database-admin", name := "Database Admin", icon := "🗄️"
    description := "Manages database schemas, queries, and migrations"
    recommendedModel := some .balanced, responseMode := some .balanced
    capabilities := ["Design database schemas", "Write efficient queries", "Create migrations",
      "Optimize performance", "Handle data integrity"]
    systemPrompt := "You are a database administrator. Your job is to:\n1. Design efficient database schemas\n2. Write optimized SQL queries\n3. Create safe migration scripts\n4. Ensure data integrity\n5. Handle indexing and performance\n\nAlways consider scalability and data safety in your solutions." }

def testerAgent : AgentConfig :=
  { id := "tester", name := "Tester", icon := "🧪"
    description := "Creates and runs tests, ensures code quality"
    recommendedModel := some .balanced, responseMode := some .balanced
    capabilities := ["Write unit tests", "Create integration tests", "Design test scenarios",
      "Identify edge cases", "Improve test coverage"]
    systemPrompt := "You are a QA engineer. Your job is to:\n1. Write comprehensive unit and integration tests\n2. Identify edge cases and error scenarios\n3. Ensure good test coverage\n4. Create meaningful test descriptions\n5. Follow testing best practices\n\nTests should be clear, maintainable, and actually verify the behavior." }

def documenterAgent : AgentConfig :=
  { id := "documenter", name := "Documenter", icon := "📝"
    description := "Writes documentation, comments, and user guides"
    recommendedModel := some .fast, responseMode := some .balanced
    capabilities := ["Write technical documentation", "Create API documentation", "Add code comments",
      "Write user guides", "Create README files"]
    systemPrompt := "You are a technical writer. Your job is to:\n1. Write clear, helpful documentation\n2. Document APIs and functions\n3. Create user guides and tutorials\n4. Add meaningful code comments\n5. Keep documentation up-to-date\n\nDocumentation should be concise, accurate, and useful." }

def debuggerAgent : AgentConfig :=
  { id := "debugger", name := "Debugger", icon := "🐛"
    description := "Finds and fixes bugs, traces issues"
    recommendedModel := some .balanced, responseMode := some .balanced
    capabilities := ["Trace bugs to root cause", "Analyze error messages", "Debug complex issues",
      "Create minimal reproductions", "Suggest fixes"]
    systemPrompt := "You are a debugging expert. Your job is to:\n1. Analyze error messages and stack traces\n2. Trace issues to their root cause\n3. Create minimal reproductions\n4. Suggest and implement fixes\n5. Verify the fix resolves the issue\n\nBe systematic and thorough in your debugging approach." }

def optimizerAgent : AgentConfig :=
  { id := "optimizer", name := "Optimizer", icon := "⚡"
    description := "Improves performance and optimizes code"
    recommendedModel := some .powerful, responseMode := some .detailed
    capabilities := ["Profile performance", "Identify bottlenecks", "Optimize algorithms",
      "Reduce memory usage", "Improve load times"]
    systemPrompt := "You are a performance engineer. Your job is to:\n1. Identify performance bottlenecks\n2. Optimize algorithms and data structures\n3. Reduce memory usage and allocations\n4. Improve response times\n5. Measure and verify improvements\n\nAlways measure before and after, and only optimize what matters." }

def devopsAgent : AgentConfig :=
  { id := "devops", name := "DevOps", icon := "🔧"
    description := "Handles CI/CD, deployment, and infrastructure"
    recommendedModel := some .balanced, responseMode := some .balanced
    capabilities := ["Configure CI/CD pipelines", "Set up deployment scripts", "Manage infrastructure",
      "Handle containerization", "Configure monitoring"]
    systemPrompt := "You are a DevOps engineer. Your job is to:\n1. Set up and configure CI/CD pipelines\n2. Create deployment scripts and workflows\n3. Configure containers and orchestration\n4. Set up monitoring and logging\n5. Ensure reliability and scalability\n\nFocus on automation, reliability, and maintainability." }

def brainstormerAgent : AgentConfig :=
  { id := "brainstormer", name := "Brainstormer", icon := "💡"
    description := "Generates creative ideas and solutions"
    recommendedModel := some .fast, responseMode := some .balanced
    capabilities := ["Generate creative solutions", "Think outside the box", "Propose alternative approaches",
      "Explore possibilities", "Challenge assumptions"]
    systemPrompt := "You are a creative thinker. Your job is to:\n1. Generate multiple possible solutions\n2. Think creatively about problems\n3. Challenge existing assumptions\n4. Propose innovative approaches\n5. Explore unconventional ideas\n\nDon\x27t self-censor - even \"crazy\" ideas can lead to great solutions." }

def aggregatorAgent : AgentConfig :=
  { id := "aggregator", name := "Aggregator", icon := "🎯"
    description := "Synthesizes outputs from multiple agents into unified results"
    recommendedModel := some .fast, responseMode := some .concise
    capabilities := ["Combine multiple inputs", "Resolve conflicts", "Create unified summaries",
      "Prioritize information", "Produce actionable output"]
    systemPrompt := "You are a synthesizer. Your job is to:\n1. Combine outputs from multiple agents\n2. Identify key insights and patterns\n3. Resolve any conflicts or contradictions\n4. Create a coherent, unified summary\n5. Produce clear, actionable recommendations\n\nFocus on creating value from the combined knowledge." }

def AGENTS : List AgentConfig :=
  [plannerAgent, scoutAgent, researcherAgent, implementerAgent, codeReviewerAgent,
   securityAuditorAgent, uiUxDesignerAgent, databaseAdminAgent, testerAgent, documenterAgent,
   debuggerAgent, optimizerAgent, devopsAgent, brainstormerAgent, aggregatorAgent]

/-- Embedding of `getAgent(id)`: `AGENTS.find(agent => agent.id === id)`. -/
def getAgent (id : String) : Option AgentConfig :=
  AGENTS.find? (fun agent => agent.id == id)

-- ========================= PromptManager (src/lib/promptManager.ts) =========================

/-- Embedding of `RESPONSE_MODE_INSTRUCTIONS`. -/
def responseModeInstructions : ResponseMode → List String
  | .concise =>
    ["- Be extremely concise - no unnecessary words",
     "- Use bullet points over paragraphs",
     "- Skip explanations unless critical",
     "- Aim for shortest possible helpful response",
     "- No greetings, sign-offs, or filler"]
  | .balanced =>
    ["- Be concise but complete",
     "- Use markdown formatting for clarity",
     "- Include brief explanations where helpful",
     "- Provide working solutions"]
  | .detailed =>
    ["- Provide comprehensive, thorough responses",
     "- Include detailed explanations and reasoning",
     "- Cover edge cases and alternatives",
     "- Use examples where helpful"]

/-- Embedding of `PromptManager.buildSystemContext`. -/
def buildSystemContext (agent : AgentConfig) : String :=
  joinNL
    (["# You are: " ++ agent.name, "**Role:** " ++ agent.description]
     ++ (if agent.capabilities.length > 0 then
          "\n**Your Capabilities:**" :: agent.capabilities.map (fun cap => "- " ++ cap)
        else [])
     ++ ["\n**Instructions:**", agent.systemPrompt, "\n**Output Guidelines:**"]
     ++ responseModeInstructions (agent.responseMode.getD .balanced)
     ++ (match agent.maxOutputTokens with
         | some m => ["- Keep response under ~" ++ toString m ++ " tokens"]
         | none => []))

/-- Embedding of `PromptManager.buildPrompt`. -/
def buildPrompt (agent : AgentConfig) (userPrompt : String) : String :=
  buildSystemContext agent ++ "\n\n---\n\n**User Request:**\n" ++ userPrompt

/-- Embedding of `PromptManager.buildChainContext`: prior outputs keyed by display name, each fenced. -/
def buildChainContext (previousOutputs : List (String × String)) : String :=
  if previousOutputs.length = 0 then ""
  else
    joinNL
      ("\n---\n**Context from Previous Agents:**" ::
        (previousOutputs.map (fun p =>
          ["\n### Output from " ++ p.1 ++ ":", "```", p.2, "```"])).flatten)

/-- Embedding of `PromptManager.buildAggregationPrompt`. -/
def buildAggregationPrompt (allOutputs : List (String × String)) (originalTask : String) : String :=
  joinNL
    (["# Aggregation Task",
      "\n**Original Request:** " ++ originalTask,
      "\n**Collected Outputs from Agents:**"]
     ++ (allOutputs.map (fun p => ["\n## From " ++ p.1 ++ ":", "```", p.2, "```"])).flatten
     ++ ["\n---",
         "\n**Your Task:**",
         "Synthesize all the above outputs into a coherent, unified response.",
         "Identify key insights, resolve any conflicts, and provide actionable recommendations."])

/-- Embedding of `PromptManager.buildRetryPrompt`. -/
def buildRetryPrompt (agent : AgentConfig) (originalPrompt error : String) (attemptNumber : Nat) : String :=
  joinNL
    [buildSystemContext agent,
     "\n---",
     "\n**RETRY ATTEMPT " ++ toString attemptNumber ++ "**",
     "\nThe previous attempt failed with the following error:",
     "```",
     error,
     "```",
     "\n**Original Request:**",
     originalPrompt,
     "\nPlease try again, addressing the error above."]

-- ============ StateManager: observable agent/workflow state (src/lib/stateManager.ts) ============

/-- Change notifications emitted by the state store (`EventEmitter.emit`). -/
inductive SMEvent
  | agentStateChanged (agentId : String) (state : AgentState)
  | workflowStateChanged (workflowId : String) (state : WorkflowState)
deriving DecidableEq

structure SM where
  agentStates : List (String × AgentState)
  workflowStates : List (String × WorkflowState)
  events : List SMEvent
deriving DecidableEq

def emptySM : SM := ⟨[], [], []⟩

/-- Embedding of `StateManager.updateAgentState`: store and notify. -/
def SM.updateAgentState (sm : SM) (agentId : String) (state : AgentState) : SM :=
  { sm with
    agentStates := objSet sm.agentStates agentId state
    events := sm.events ++ [.agentStateChanged agentId state] }

/-- Embedding of `StateManager.updateWorkflowState`: store and notify. -/
def SM.updateWorkflowState (sm : SM) (workflowId : String) (state : WorkflowState) : SM :=
  { sm with
    workflowStates := objSet sm.workflowStates workflowId state
    events := sm.events ++ [.workflowStateChanged workflowId state] }

-- ============ WorkflowRunner: per-agent task runner with retry (runner part_000) ============

/-- The external worker contract (`AgentRunner.run`): profile and prompt to result.
The streaming chunk callback is not modelled; the final `RunResult` is what the
orchestrator consumes. -/
def Worker : Type := AgentConfig → String → RunResult

/-- The two state writes of one attempt in `runAgentWithRetry`: transition the
role to `running` (with retry count and start timestamp), then to
`completed`/`error` with the attempt's result (the final-state object literal in
the source carries no start timestamp). -/
def attemptStates (now : Int) (sm : SM) (agentId : String) (retryCount : Nat) (result : RunResult) : SM :=
  (sm.updateAgentState agentId
    { id := agentId, status := .running, output := "", retryCount := retryCount, startTime := some now
    }).updateAgentState agentId
    { id := agentId, status := if result.success then .completed else .error
      output := result.output, error := result.error, retryCount := retryCount, endTime := some now }

/-- Embedding of `WorkflowRunner.runAgentWithRetry`, made structurally recursive: the source
recurses with `retryCount + 1` under the guard `retryCount < maxRetries`, so we
carry `gas = maxRetries - retryCount`, which decreases by one per retry.  The
returned list is the trace of prompts handed to the external worker, in order. -/
def runAgentWithRetryGas (wk : Worker) (now : Int) :
    Nat → SM → String → String → Nat → RunResult × SM × List String
  | gas, sm, agentId, prompt, retryCount =>
    match getAgent agentId with
    | none => ({ success := false, output := "", error := some ("Agent " ++ agentId ++ " not found") }, sm, [])
    | some agent =>
      let result := wk agent prompt
      let sm2 := attemptStates now sm agentId retryCount result
      match gas with
      | 0 => (result, sm2, [prompt])
      | gas' + 1 =>
        if result.success = false then
          let next := runAgentWithRetryGas wk now gas' sm2 agentId
            (buildRetryPrompt agent prompt (jsOr result.error "Unknown error") (retryCount + 1))
            (retryCount + 1)
          (next.1, next.2.1, prompt :: next.2.2)
        else (result, sm2, [prompt])

/-- Embedding of `WorkflowRunner.runAgentWithRetry(agentId, prompt, retryCount)`. -/
def runAgentWithRetry (wk : Worker) (opts : RunnerOptions) (now : Int) (sm : SM)
    (agentId prompt : String) (retryCount : Nat) : RunResult × SM × List String :=
  runAgentWithRetryGas wk now (opts.maxRetries - retryCount) sm agentId prompt retryCount

-- ============ WorkflowRunner: the three pattern algorithms ============

/-- One step-level invocation performed by a pattern: the agent id, the effective
prompt passed to `runAgentWithRetry`, and the final (post-retry) result. -/
structure StepRun where
  agentId : String
  prompt : String
  result : RunResult
deriving DecidableEq

/-- Accumulator for the sequential loop. `err` models the thrown step-failure
exception: once set, the remaining loop iterations are skipped. -/
structure SeqAcc where
  outputs : List (String × String)
  prevOutputs : List (String × String)
  currentPrompt : String
  sm : SM
  runs : List StepRun
  err : Option String

/-- The prompt actually sent to a sequential step: the running base prompt, with
the chain-context block appended when any prior step produced output. -/
def chainPrompt (currentPrompt : String) (previousOutputs : List (String × String)) : String :=
  if previousOutputs.length > 0 then
    currentPrompt ++ "\n\n" ++ buildChainContext previousOutputs
  else currentPrompt

/-- One iteration of the `executeSequential` loop body. -/
def seqStep (wk : Worker) (opts : RunnerOptions) (now : Int) (initialPrompt : String)
    (acc : SeqAcc) (step : WorkflowStep) : SeqAcc :=
  if acc.err.isSome then acc
  else
    match getAgent step.agentId with
    | none => acc
    | some agent =>
      let contextPrompt := chainPrompt acc.currentPrompt acc.prevOutputs
      let out := runAgentWithRetry wk opts now acc.sm step.agentId contextPrompt 0
      let result := out.1
      if result.success then
        { outputs := objSet acc.outputs step.agentId result.output
          prevOutputs := objSet acc.prevOutputs agent.name result.output
          currentPrompt := jsOr step.input initialPrompt
          sm := out.2.1
          runs := acc.runs ++ [⟨step.agentId, contextPrompt, result⟩]
          err := none }
      else
        { acc with
          sm := out.2.1
          runs := acc.runs ++ [⟨step.agentId, contextPrompt, result⟩]
          err := some ("Agent " ++ step.agentId ++ " failed: " ++ jsShow result.error) }

def runSeq (wk : Worker) (opts : RunnerOptions) (now : Int) (initialPrompt : String) :
    List WorkflowStep → SeqAcc → SeqAcc
  | [], acc => acc
  | step :: rest, acc => runSeq wk opts now initialPrompt rest (seqStep wk opts now initialPrompt acc step)

/-- The sequential loop's initial accumulator: no outputs, no prior context,
`currentPrompt = initialPrompt`, no runs, no error. -/
def seqInitAcc (sm : SM) (initialPrompt : String) : SeqAcc :=
  ⟨[], [], initialPrompt, sm, [], none⟩

/-- Embedding of `WorkflowRunner.executeSequential`. -/
def executeSequential (wk : Worker) (opts : RunnerOptions) (now : Int) (sm : SM)
    (steps : List WorkflowStep) (initialPrompt : String) : SeqAcc :=
  runSeq wk opts now initialPrompt steps (seqInitAcc sm initialPrompt)

/-- The per-step invocations of `executeParallel` / `executeFanOut`: submission
order matches step-list order; each step uses its own input or the initial
prompt verbatim.  Individual invocations never raise, so all promises settle
fulfilled. -/
def parRuns (wk : Worker) (opts : RunnerOptions) (now : Int) (initialPrompt : String) :
    List WorkflowStep → SM → List StepRun × SM
  | [], sm => ([], sm)
  | step :: rest, sm =>
    let prompt := jsOr step.input initialPrompt
    let out := runAgentWithRetry wk opts now sm step.agentId prompt 0
    let next := parRuns wk opts now initialPrompt rest out.2.1
    (⟨step.agentId, prompt, out.1⟩ :: next.1, next.2)

/-- The settled-results loop: only `success = true` results enter the output map. -/
def collectOutputs : List StepRun → List (String × String) → List (String × String)
  | [], outputs => outputs
  | r :: rest, outputs =>
    collectOutputs rest (if r.result.success then objSet outputs r.agentId r.result.output else outputs)

/-- Embedding of `WorkflowRunner.executeParallel`. -/
def executeParallel (wk : Worker) (opts : RunnerOptions) (now : Int) (sm : SM)
    (steps : List WorkflowStep) (initialPrompt : String) :
    List (String × String) × SM × List StepRun :=
  let pr := parRuns wk opts now initialPrompt steps sm
  (collectOutputs pr.1 [], pr.2, pr.1)

/-- Embedding of `WorkflowRunner.executeFanOut`: run non-aggregator steps in parallel, then
aggregate if any output was collected.  The fourth component records the
aggregator invocation (its prompt and result), if one happened. -/
def executeFanOut (wk : Worker) (opts : RunnerOptions) (now : Int) (sm : SM)
    (steps : List WorkflowStep) (initialPrompt : String) :
    List (String × String) × SM × List StepRun × Option (String × RunResult) :=
  let nonAggregatorSteps := steps.filter (fun s => s.agentId != "aggregator")
  let pr := parRuns wk opts now initialPrompt nonAggregatorSteps sm
  let outputs := collectOutputs pr.1 []
  if outputs.length > 0 then
    let aggregationPrompt := buildAggregationPrompt outputs initialPrompt
    let aggOut := runAgentWithRetry wk opts now pr.2 "aggregator" aggregationPrompt 0
    let outputs' := if aggOut.1.success then objSet outputs "aggregator" aggOut.1.output else outputs
    (outputs', aggOut.2.1, pr.1, some (aggregationPrompt, aggOut.1))
  else (outputs, pr.2, pr.1, none)

/-- Observable outcome of `WorkflowRunner.execute`: the exception propagated to
the caller (if any), the final output map, the state store, the step-level
invocations of the dispatched pattern, and the fan-out aggregator invocation. -/
structure ExecOutcome where
  thrown : Option String
  outputs : List (String × String)
  sm : SM
  runs : List StepRun
  aggRun : Option (String × RunResult)
deriving DecidableEq

/-- Embedding of `WorkflowRunner.execute`: initialise the workflow state to `running`,
dispatch on the pattern, then mark `completed`, or mark `error` and rethrow if
the pattern threw. -/
def initialWorkflowState (workflowId : String) (now : Int) : WorkflowState :=
  { id := workflowId, status := .running, currentStep := 0, agentStates := [], startTime := some now }

def execute (wk : Worker) (opts : RunnerOptions) (now : Int) (sm : SM)
    (workflow : Workflow) (initialPrompt : String) : ExecOutcome :=
  let workflowState : WorkflowState := initialWorkflowState workflow.id now
  let sm0 := sm.updateWorkflowState workflow.id workflowState
  match workflow.pattern with
  | .sequential =>
    let acc := executeSequential wk opts now sm0 workflow.steps initialPrompt
    match acc.err with
    | none =>
      { thrown := none, outputs := acc.outputs
        sm := acc.sm.updateWorkflowState workflow.id
          { workflowState with status := .completed, endTime := some now }
        runs := acc.runs, aggRun := none }
    | some e =>
      { thrown := some e, outputs := acc.outputs
        sm := acc.sm.updateWorkflowState workflow.id
          { workflowState with status := .error, endTime := some now }
        runs := acc.runs, aggRun := none }
  | .parallel =>
    let r := executeParallel wk opts now sm0 workflow.steps initialPrompt
    { thrown := none, outputs := r.1
      sm := r.2.1.updateWorkflowState workflow.id
        { workflowState with status := .completed, endTime := some now }
      runs := r.2.2, aggRun := none }
  | .fanOut =>
    let r := executeFanOut wk opts now sm0 workflow.steps initialPrompt
    { thrown := none, outputs := r.1
      sm := r.2.1.updateWorkflowState workflow.id
        { workflowState with status := .completed, endTime := some now }
      runs := r.2.2.1, aggRun := r.2.2.2 }

/-- The recorded status of a workflow in the state store. -/
def wfStatus (sm : SM) (workflowId : String) : Option WorkflowStatus :=
  (objGet sm.workflowStates workflowId).map (fun ws => ws.status)

-- ============ StateManager: token / budget accounting (stateManager part_000) ============

structure TokenBudget where
  daily : ℚ
  warning : ℚ
  enabled : Bool
deriving DecidableEq

structure ProjectTokenStats where
  totalInputTokens : Nat
  totalOutputTokens : Nat
  totalTokens : Nat
  totalCost : ℚ
  sessionCount : Nat
  byAgent : List (String × TokenUsage)
  lastUpdated : Int
  sessionStartTime : Option Int := none
  lastResetTime : Option Int := none
  budget : Option TokenBudget := none
  dailyTokens : Option Nat := none
  dailyResetTime : Option Int := none
deriving DecidableEq

/-- Accounting notifications emitted by the state store. -/
inductive AccEvent
  | tokenStatsChanged (stats : ProjectTokenStats)
  | budgetWarning (dailyTokens : Nat) (budget : ℚ) (percentage : ℚ)
  | budgetExceeded (dailyTokens : Nat) (budget : ℚ) (percentage : ℚ)
deriving DecidableEq

def isBudgetWarning : AccEvent → Bool
  | .budgetWarning _ _ _ => true
  | _ => false

def isBudgetExceeded : AccEvent → Bool
  | .budgetExceeded _ _ _ => true
  | _ => false

structure ModelPricing where
  input : ℚ
  output : ℚ
deriving DecidableEq

def sonnetPricing : ModelPricing := { input := 3, output := 15 }

/-- Embedding of `TOKEN_PRICING` (per 1M tokens). -/
def TOKEN_PRICING : List (String × ModelPricing) :=
  [("claude-opus-4-5-20251101", { input := 15, output := 75 }),
   ("claude-sonnet-4-5-20250929", sonnetPricing),
   ("claude-3-5-haiku-20241022", { input := 0.25, output := 1.25 })]

def oneDayMs : Int := 24 * 60 * 60 * 1000

/-- Embedding of `StateManager.checkDailyReset`: zero the daily counter if more than 24 hours
passed since the last daily reset. -/
def checkDailyReset (now : Int) (stats : ProjectTokenStats) : ProjectTokenStats :=
  let lastReset := stats.dailyResetTime.getD 0
  if now - lastReset > oneDayMs then
    { stats with dailyTokens := some 0, dailyResetTime := some now }
  else stats

/-- Embedding of `StateManager.checkBudgetWarning`: one write's worth of budget events. -/
def checkBudgetWarning (stats : ProjectTokenStats) : List AccEvent :=
  match stats.budget with
  | none => []
  | some budget =>
    if budget.enabled = false then []
    else
      let dailyTokens := stats.dailyTokens.getD 0
      let percentage : ℚ := (dailyTokens : ℚ) / budget.daily
      if percentage ≥ 1 then [.budgetExceeded dailyTokens budget.daily percentage]
      else if percentage ≥ budget.warning then [.budgetWarning dailyTokens budget.daily percentage]
      else []

/-- The per-agent update in `addTokenUsage`: create a zero record if the agent
has none, then add the write's tokens and cost. -/
def addAgentUsage (byAgent : List (String × TokenUsage)) (agentId : String)
    (usage : TokenUsage) (cost : ℚ) : List (String × TokenUsage) :=
  let cur := (objGet byAgent agentId).getD { inputTokens := 0, outputTokens := 0, totalTokens := 0, cost := some 0 }
  objSet byAgent agentId
    { inputTokens := cur.inputTokens + usage.inputTokens
      outputTokens := cur.outputTokens + usage.outputTokens
      totalTokens := cur.totalTokens + usage.totalTokens
      cost := some (cur.cost.getD 0 + cost) }

/-- Embedding of `StateManager.addTokenUsage` (= the spec's `recordUsage`): returns the new
stats and the events emitted by this write, in emission order. -/
def addTokenUsage (now : Int) (stats : ProjectTokenStats) (agentId : String)
    (usage : TokenUsage) (model : String) : ProjectTokenStats × List AccEvent :=
  let cost : ℚ :=
    match usage.cost with
    | some c => c
    | none =>
      let pricing := (objGet TOKEN_PRICING model).getD sonnetPricing
      (usage.inputTokens : ℚ) / 1000000 * pricing.input
        + (usage.outputTokens : ℚ) / 1000000 * pricing.output
  let s1 := checkDailyReset now stats
  let s2 : ProjectTokenStats :=
    { s1 with
      totalInputTokens := s1.totalInputTokens + usage.inputTokens
      totalOutputTokens := s1.totalOutputTokens + usage.outputTokens
      totalTokens := s1.totalTokens + usage.totalTokens
      totalCost := s1.totalCost + cost
      sessionCount := s1.sessionCount + 1
      lastUpdated := now
      dailyTokens := some (s1.dailyTokens.getD 0 + usage.totalTokens)
      byAgent := addAgentUsage s1.byAgent agentId usage cost }
  (s2, .tokenStatsChanged s2 :: checkBudgetWarning s2)

/-- Embedding of `StateManager.setBudget(daily, warning = 0.8)`. -/
def setBudget (stats : ProjectTokenStats) (daily : ℚ) (warning : ℚ := 0.8) :
    ProjectTokenStats × List AccEvent :=
  let s := { stats with budget := some { daily := daily, warning := warning, enabled := true } }
  (s, [.tokenStatsChanged s])

/-- Embedding of `StateManager.resetTokenStats` (= the spec's `resetAll`): the stats record
is replaced wholesale by the default record stamped with the current time. -/
def resetTokenStats (now : Int) (_stats : ProjectTokenStats) : ProjectTokenStats × List AccEvent :=
  let s : ProjectTokenStats :=
    { totalInputTokens := 0, totalOutputTokens := 0, totalTokens := 0, totalCost := 0
      sessionCount := 0, byAgent := [], lastUpdated := now
      sessionStartTime := some now, lastResetTime := some now }
  (s, [.tokenStatsChanged s])

/-- The all-zero stats record built by `loadTokenStats` when nothing was saved. -/
def initialTokenStats (now : Int) : ProjectTokenStats :=
  { totalInputTokens := 0, totalOutputTokens := 0, totalTokens := 0, totalCost := 0
    sessionCount := 0, byAgent := [], lastUpdated := now
    sessionStartTime := some now, lastResetTime := some now }

/-- The accounting operations the additivity claim quantifies over. -/
inductive AccOp
  | record (now : Int) (agentId : String) (usage : TokenUsage) (model : String)
  | reset (now : Int)

def applyAccOp (stats : ProjectTokenStats) : AccOp → ProjectTokenStats
  | .record now agentId usage model => (addTokenUsage now stats agentId usage model).1
  | .reset now => (resetTokenStats now stats).1

def runAccOps (stats : ProjectTokenStats) (ops : List AccOp) : ProjectTokenStats :=
  ops.foldl applyAccOp stats

/-- Sum of the per-role total token counters. -/
def byAgentTotal (byAgent : List (String × TokenUsage)) : Nat :=
  (byAgent.map (fun p => p.2.totalTokens)).sum

-- ========================= Basic lemmas about the JS-map model =========================

@[simp]
theorem objGet_objSet_self {α : Type} (l : List (String × α)) (k : String) (v : α) :
    objGet (objSet l k v) k = some v := by
  induction l with
  | nil => simp [objGet, objSet]
  | cons p rest ih =>
    by_cases h : p.1 = k
    · simp [objGet, objSet, h]
    · simp [objGet, objSet, h, ih]

theorem objGet_objSet_ne {α : Type} (l : List (String × α)) (k k' : String) (v : α)
    (h : k' ≠ k) : objGet (objSet l k v) k' = objGet l k' := by
  induction l with
  | nil => simp [objGet, objSet, Ne.symm h]
  | cons p rest ih =>
    by_cases hp : p.1 = k
    · subst hp
      simp [objGet, objSet, Ne.symm h]
    · simp [objGet, objSet, hp, ih]

theorem length_le_objSet {α : Type} (l : List (String × α)) (k : String) (v : α) :
    l.length ≤ (objSet l k v).length := by
  induction l with
  | nil => simp [objSet]
  | cons p rest ih =>
    by_cases h : p.1 = k
    · simp [objSet, h]
    · simp only [objSet, if_neg h, List.length_cons]
      omega

-- ========================= String containment =========================

/-- The string `needle` occurs verbatim inside `hay`. -/
def strContains (needle hay : String) : Prop :=
  ∃ a b, hay = a ++ needle ++ b

theorem strContains_self (s : String) : strContains s s :=
  ⟨"", "", by rw [String.empty_append, String.append_empty]⟩

theorem strContains_appendLeft (s t u : String) (h : strContains s t) :
    strContains s (u ++ t) := by
  obtain ⟨a, b, rfl⟩ := h
  exact ⟨u ++ a, b, by simp [String.append_assoc]⟩

theorem strContains_appendRight (s t u : String) (h : strContains s t) :
    strContains s (t ++ u) := by
  obtain ⟨a, b, rfl⟩ := h
  exact ⟨a, b ++ u, by simp [String.append_assoc]⟩

theorem strContains_trans (s t u : String) (hst : strContains s t) (htu : strContains t u) :
    strContains s u := by
  obtain ⟨a, b, rfl⟩ := hst
  obtain ⟨c, d, rfl⟩ := htu
  exact ⟨c ++ a, b ++ d, by simp [String.append_assoc]⟩

/-- Every element of the joined list occurs verbatim in the join. -/
theorem strContains_joinNL_of_mem (s : String) (l : List String) (h : s ∈ l) :
    strContains s (joinNL l) := by
  induction l with
  | nil => cases h
  | cons x rest ih =>
    cases rest with
    | nil =>
      rw [List.mem_singleton] at h
      subst h
      exact strContains_self s
    | cons y rest' =>
      rcases List.mem_cons.mp h with h | h
      · subst h
        show strContains s (s ++ "\n" ++ joinNL (y :: rest'))
        exact ⟨"", "\n" ++ joinNL (y :: rest'), by simp [String.append_assoc, String.empty_append]⟩
      · show strContains s (x ++ "\n" ++ joinNL (y :: rest'))
        obtain ⟨a, b, hab⟩ := ih h
        exact ⟨x ++ "\n" ++ a, b, by rw [hab]; simp [String.append_assoc]⟩

-- ========================= Concrete workers and options for examples =========================

/-- A worker contract that always reports success with output `"OUT"`. -/
def okWorker : Worker := fun _ _ => { success := true, output := "OUT" }

/-- A worker contract that always succeeds, tagging the output with the profile id. -/
def taggedWorker : Worker := fun agent _ => { success := true, output := "OUT-" ++ agent.id }

/-- A worker contract that always reports failure. -/
def alwaysFailWorker : Worker := fun _ _ => { success := false, output := "", error := some "boom" }

/-- A worker contract that fails exactly for the implementer profile. -/
def failImplWorker : Worker := fun agent _ =>
  if agent.id = "implementer" then { success := false, output := "", error := some "boom" }
  else { success := true, output := "OUT" }

def opts0 : RunnerOptions := { cliPath := "claude", maxRetries := 0, model := "m", workingDirectory := "." }

def opts2 : RunnerOptions := { cliPath := "claude", maxRetries := 2, model := "m", workingDirectory := "." }


-- ========================= Retry policy: lemmas =========================

/-- The final result of the retry recursion for a registered profile, independent
of the state store (the recursion writes state but never reads it). -/
def retryResultGas (wk : Worker) : Nat → AgentConfig → String → Nat → RunResult
  | gas, agent, prompt, retryCount =>
    let result := wk agent prompt
    match gas with
    | 0 => result
    | gas' + 1 =>
      if result.success = false then
        retryResultGas wk gas' agent
          (buildRetryPrompt agent prompt (jsOr result.error "Unknown error") (retryCount + 1))
          (retryCount + 1)
      else result

/-- The final (post-retry) result of `runAgentWithRetry` for a registered role. -/
def retryResult (wk : Worker) (opts : RunnerOptions) (agent : AgentConfig) (prompt : String) : RunResult :=
  retryResultGas wk opts.maxRetries agent prompt 0

theorem runAgentWithRetryGas_none (wk : Worker) (now : Int) (gas : Nat) (sm : SM)
    (agentId prompt : String) (rc : Nat) (h : getAgent agentId = none) :
    runAgentWithRetryGas wk now gas sm agentId prompt rc =
      ({ success := false, output := "", error := some ("Agent " ++ agentId ++ " not found") }, sm, []) := by
  rw [runAgentWithRetryGas, h]

theorem runAgentWithRetryGas_fst (wk : Worker) (now : Int) (agentId : String) (agent : AgentConfig)
    (hreg : getAgent agentId = some agent) :
    ∀ (gas : Nat) (sm : SM) (prompt : String) (retryCount : Nat),
      (runAgentWithRetryGas wk now gas sm agentId prompt retryCount).1 =
        retryResultGas wk gas agent prompt retryCount := by
  intro gas
  induction gas with
  | zero =>
    intro sm prompt rc
    rw [runAgentWithRetryGas, hreg, retryResultGas]
  | succ g ih =>
    intro sm prompt rc
    rw [runAgentWithRetryGas, hreg, retryResultGas]
    by_cases hs : (wk agent prompt).success = false
    · simp [hs, ih]
    · simp [hs]

theorem retryResultGas_of_success (wk : Worker) (gas : Nat) (agent : AgentConfig)
    (prompt : String) (rc : Nat) (hs : (wk agent prompt).success = true) :
    retryResultGas wk gas agent prompt rc = wk agent prompt := by
  cases gas with
  | zero => rw [retryResultGas]
  | succ g => rw [retryResultGas]; simp [hs]

theorem runAgentWithRetryGas_workflowStates (wk : Worker) (now : Int) (agentId : String) :
    ∀ (gas : Nat) (sm : SM) (prompt : String) (rc : Nat),
      (runAgentWithRetryGas wk now gas sm agentId prompt rc).2.1.workflowStates = sm.workflowStates := by
  intro gas
  induction gas with
  | zero =>
    intro sm prompt rc
    rw [runAgentWithRetryGas]
    cases h : getAgent agentId with
    | none => rfl
    | some agent => rfl
  | succ g ih =>
    intro sm prompt rc
    rw [runAgentWithRetryGas]
    cases h : getAgent agentId with
    | none => rfl
    | some agent =>
      by_cases hs : (wk agent prompt).success = false
      · simp only [hs]
        simp [ih]
        rfl
      · simp [hs]
        rfl

theorem runAgentWithRetryGas_always_fails (wk : Worker) (now : Int) (agentId : String)
    (agent : AgentConfig) (hreg : getAgent agentId = some agent)
    (hfail : ∀ a p, (wk a p).success = false) :
    ∀ (gas : Nat) (sm : SM) (prompt : String) (rc : Nat),
      (runAgentWithRetryGas wk now gas sm agentId prompt rc).2.2.length = gas + 1 ∧
      ∃ ps p, (runAgentWithRetryGas wk now gas sm agentId prompt rc).2.2 = ps ++ [p] ∧
        (runAgentWithRetryGas wk now gas sm agentId prompt rc).1 = wk agent p := by
  intro gas
  induction gas with
  | zero =>
    intro sm prompt rc
    rw [runAgentWithRetryGas, hreg]
    exact ⟨rfl, [], prompt, rfl, rfl⟩
  | succ g ih =>
    intro sm prompt rc
    rw [runAgentWithRetryGas, hreg]
    simp only [hfail agent prompt, reduceIte]
    obtain ⟨hlen, ps, p, hps, hres⟩ :=
      ih (attemptStates now sm agentId rc (wk agent prompt))
        (buildRetryPrompt agent prompt (jsOr (wk agent prompt).error "Unknown error") (rc + 1))
        (rc + 1)
    refine ⟨?_, prompt :: ps, p, ?_, ?_⟩
    · simp only [List.length_cons, hlen]
    · simp only [List.cons_append, hps]
    · exact hres

-- ========================= Claims C5 and C6 =========================

/-- C5: with a registered profile and an always-failing worker contract, the
retry recursion performs exactly `maxRetries + 1` worker invocations, and the
final `Result` is the worker's response to the last invocation (a failure).
Termination holds because the recursion is a total function. -/
theorem retry_attempts_bounded (wk : Worker) (opts : RunnerOptions) (now : Int) (sm : SM)
    (agentId prompt : String) (agent : AgentConfig)
    (hreg : getAgent agentId = some agent)
    (hfail : ∀ a p, (wk a p).success = false) :
    (runAgentWithRetry wk opts now sm agentId prompt 0).2.2.length = opts.maxRetries + 1 ∧
    ∃ ps p, (runAgentWithRetry wk opts now sm agentId prompt 0).2.2 = ps ++ [p] ∧
      (runAgentWithRetry wk opts now sm agentId prompt 0).1 = wk agent p ∧
      (runAgentWithRetry wk opts now sm agentId prompt 0).1.success = false := by
  unfold runAgentWithRetry
  rw [Nat.sub_zero]
  obtain ⟨hlen, ps, p, hps, hres⟩ :=
    runAgentWithRetryGas_always_fails wk now agentId agent hreg hfail opts.maxRetries sm prompt 0
  exact ⟨hlen, ps, p, hps, hres, by rw [hres]; exact hfail agent p⟩

theorem retry_attempts_bounded_witness :
    (runAgentWithRetry alwaysFailWorker opts2 0 emptySM "planner" "go" 0).2.2.length = 3 ∧
    (runAgentWithRetry alwaysFailWorker opts2 0 emptySM "planner" "go" 0).1.success = false := by
  obtain ⟨hlen, ps, p, hps, hres, hsucc⟩ :=
    retry_attempts_bounded alwaysFailWorker opts2 0 emptySM "planner" "go" plannerAgent rfl
      (fun _ _ => rfl)
  exact ⟨hlen, hsucc⟩

/-- C6: for a role with no registered profile, a single-agent execution returns
failure with a profile-not-found error, performs no worker invocation and no
retry, and leaves the state store (entries and notifications) unchanged. -/
theorem missing_profile_no_mutation (wk : Worker) (opts : RunnerOptions) (now : Int) (sm : SM)
    (agentId prompt : String) (h : getAgent agentId = none) :
    runAgentWithRetry wk opts now sm agentId prompt 0 =
      ({ success := false, output := "", error := some ("Agent " ++ agentId ++ " not found") }, sm, []) := by
  unfold runAgentWithRetry
  exact runAgentWithRetryGas_none wk now _ sm agentId prompt 0 h

theorem missing_profile_no_mutation_witness :
    runAgentWithRetry okWorker opts2 0 emptySM "ghost" "hi" 0 =
      ({ success := false, output := "", error := some "Agent ghost not found" }, emptySM, []) :=
  missing_profile_no_mutation okWorker opts2 0 emptySM "ghost" "hi" rfl


-- ========================= Accounting lemmas and claims C7, C8, C9 =========================

theorem checkDailyReset_budget (now : Int) (s : ProjectTokenStats) :
    (checkDailyReset now s).budget = s.budget := by
  rw [checkDailyReset]
  split <;> rfl

theorem checkDailyReset_totalTokens (now : Int) (s : ProjectTokenStats) :
    (checkDailyReset now s).totalTokens = s.totalTokens := by
  rw [checkDailyReset]
  split <;> rfl

theorem checkDailyReset_byAgent (now : Int) (s : ProjectTokenStats) :
    (checkDailyReset now s).byAgent = s.byAgent := by
  rw [checkDailyReset]
  split <;> rfl

theorem addTokenUsage_budget (now : Int) (s : ProjectTokenStats) (agentId : String)
    (usage : TokenUsage) (model : String) :
    (addTokenUsage now s agentId usage model).1.budget = s.budget :=
  checkDailyReset_budget now s

theorem addTokenUsage_events (now : Int) (s : ProjectTokenStats) (agentId : String)
    (usage : TokenUsage) (model : String) :
    (addTokenUsage now s agentId usage model).2 =
      .tokenStatsChanged (addTokenUsage now s agentId usage model).1 ::
        checkBudgetWarning (addTokenUsage now s agentId usage model).1 := rfl

/-- C7: with a configured, enabled, positive daily budget, a write that leaves
the daily counter at `d` emits a budget-exceeded event exactly when
`d / limit ≥ 1` and otherwise emits a budget-warning event exactly when
`d / limit ≥ warning fraction`; the check runs on every write, so there is no
de-duplication.  (Positivity of the limit is assumed because the rational-number
model and JavaScript division only agree on a positive divisor.) -/
theorem record_usage_budget_thresholds (now : Int) (stats : ProjectTokenStats) (agentId : String)
    (usage : TokenUsage) (model : String) (b : TokenBudget)
    (hb : stats.budget = some b) (hen : b.enabled = true) (_hpos : 0 < b.daily) :
    ((addTokenUsage now stats agentId usage model).2.any isBudgetExceeded = true ↔
      (((addTokenUsage now stats agentId usage model).1.dailyTokens.getD 0 : ℚ) / b.daily ≥ 1)) ∧
    (¬ (((addTokenUsage now stats agentId usage model).1.dailyTokens.getD 0 : ℚ) / b.daily ≥ 1) →
      ((addTokenUsage now stats agentId usage model).2.any isBudgetWarning = true ↔
        (((addTokenUsage now stats agentId usage model).1.dailyTokens.getD 0 : ℚ) / b.daily ≥ b.warning))) := by
  have hbudget : (addTokenUsage now stats agentId usage model).1.budget = some b := by
    rw [addTokenUsage_budget, hb]
  rw [addTokenUsage_events]
  rw [checkBudgetWarning, hbudget]
  simp only [hen]
  by_cases h1 : (((addTokenUsage now stats agentId usage model).1.dailyTokens.getD 0 : ℚ) / b.daily ≥ 1)
  · simp [h1, isBudgetExceeded, isBudgetWarning]
  · by_cases h2 : (((addTokenUsage now stats agentId usage model).1.dailyTokens.getD 0 : ℚ) / b.daily ≥ b.warning)
    · simp [h1, h2, isBudgetExceeded, isBudgetWarning]
    · simp [h1, h2, isBudgetExceeded, isBudgetWarning]

def budgetStats700 : ProjectTokenStats :=
  { totalInputTokens := 500, totalOutputTokens := 200, totalTokens := 700, totalCost := 1
    sessionCount := 3, byAgent := [], lastUpdated := 0
    sessionStartTime := some 0, lastResetTime := some 0
    budget := some { daily := 1000, warning := 0.8, enabled := true }
    dailyTokens := some 700, dailyResetTime := some 0 }

def budgetStats850 : ProjectTokenStats :=
  { budgetStats700 with totalTokens := 850, dailyTokens := some 850 }

def usage150 : TokenUsage := { inputTokens := 100, outputTokens := 50, totalTokens := 150, cost := some 0 }

def usage200 : TokenUsage := { inputTokens := 100, outputTokens := 100, totalTokens := 200, cost := some 0 }

theorem record_usage_budget_thresholds_witness :
    (addTokenUsage 1000 budgetStats700 "planner" usage150 "m").2.any isBudgetWarning = true ∧
    (addTokenUsage 1000 budgetStats850 "planner" usage200 "m").2.any isBudgetExceeded = true := by
  have hd1 : ((addTokenUsage 1000 budgetStats700 "planner" usage150 "m").1.dailyTokens.getD 0 : ℚ) = 850 := by
    norm_num [addTokenUsage, checkDailyReset, budgetStats700, usage150, oneDayMs]
  have hd2 : ((addTokenUsage 1000 budgetStats850 "planner" usage200 "m").1.dailyTokens.getD 0 : ℚ) = 1050 := by
    norm_num [addTokenUsage, checkDailyReset, budgetStats850, budgetStats700, usage200, oneDayMs]
  constructor
  · have h := record_usage_budget_thresholds 1000 budgetStats700 "planner" usage150 "m"
      { daily := 1000, warning := 0.8, enabled := true } rfl rfl (by norm_num)
    refine (h.2 ?_).mpr ?_
    · rw [hd1]; norm_num
    · rw [hd1]; norm_num
  · have h := record_usage_budget_thresholds 1000 budgetStats850 "planner" usage200 "m"
      { daily := 1000, warning := 0.8, enabled := true } rfl rfl (by norm_num)
    exact h.1.mpr (by rw [hd2]; norm_num)

-- C8 -----------------------------------------------------------------------

def budgetStats : ProjectTokenStats :=
  { totalInputTokens := 100, totalOutputTokens := 50, totalTokens := 150, totalCost := 1
    sessionCount := 2
    byAgent := [("planner", { inputTokens := 100, outputTokens := 50, totalTokens := 150, cost := some 1 })]
    lastUpdated := 10, sessionStartTime := some 0, lastResetTime := some 0
    budget := some { daily := 1000, warning := 0.8, enabled := true }
    dailyTokens := some 150, dailyResetTime := some 0 }

/-- C8 counterexample: the reset-all operation does not leave the budget
configuration as it was — starting from a state with a configured, enabled
budget, the state after reset has no budget configuration at all. -/
theorem reset_clears_budget_counterexample :
    budgetStats.budget = some { daily := 1000, warning := 0.8, enabled := true } ∧
    (resetTokenStats 99 budgetStats).1.budget = none := ⟨rfl, rfl⟩

/-- C8 amended: the reset-all operation replaces the whole stats record with the
default record — every cumulative and per-role counter is zeroed and fresh
session-start / last-reset timestamps are stamped, but the budget configuration
(and the daily counter and its reset timestamp) are cleared rather than kept. -/
theorem reset_all_spec (now : Int) (stats : ProjectTokenStats) :
    (resetTokenStats now stats).1 =
      { totalInputTokens := 0, totalOutputTokens := 0, totalTokens := 0, totalCost := 0
        sessionCount := 0, byAgent := [], lastUpdated := now
        sessionStartTime := some now, lastResetTime := some now
        budget := none, dailyTokens := none, dailyResetTime := none } := rfl

-- C9 -----------------------------------------------------------------------

theorem byAgentTotal_addAgentUsage (l : List (String × TokenUsage)) (agentId : String)
    (usage : TokenUsage) (cost : ℚ) :
    byAgentTotal (addAgentUsage l agentId usage cost) = byAgentTotal l + usage.totalTokens := by
  induction l with
  | nil => simp [addAgentUsage, byAgentTotal, objGet, objSet]
  | cons p rest ih =>
    by_cases h : p.1 = agentId
    · subst h
      simp [addAgentUsage, objGet, objSet, byAgentTotal]
      omega
    · have hstep : addAgentUsage (p :: rest) agentId usage cost =
          p :: addAgentUsage rest agentId usage cost := by
        simp [addAgentUsage, objGet, objSet, h]
      rw [hstep]
      simp only [byAgentTotal, List.map_cons, List.sum_cons] at ih ⊢
      omega

theorem applyAccOp_additivity (s : ProjectTokenStats) (op : AccOp)
    (h : s.totalTokens = byAgentTotal s.byAgent) :
    (applyAccOp s op).totalTokens = byAgentTotal (applyAccOp s op).byAgent := by
  cases op with
  | record now agentId usage model =>
    show (checkDailyReset now s).totalTokens + usage.totalTokens =
      byAgentTotal (addAgentUsage (checkDailyReset now s).byAgent agentId usage _)
    rw [byAgentTotal_addAgentUsage, checkDailyReset_totalTokens, checkDailyReset_byAgent, h]
  | reset now => rfl

/-- C9: every accounting state reachable from the all-zero initial state by a
sequence of recordUsage / reset-all operations satisfies the additivity
invariant: the cumulative total token counter equals the sum over roles of the
per-role total token counters. -/
theorem total_tokens_additivity (now0 : Int) (ops : List AccOp) :
    (runAccOps (initialTokenStats now0) ops).totalTokens =
      byAgentTotal (runAccOps (initialTokenStats now0) ops).byAgent := by
  suffices h : ∀ (s : ProjectTokenStats), s.totalTokens = byAgentTotal s.byAgent →
      (runAccOps s ops).totalTokens = byAgentTotal (runAccOps s ops).byAgent from h _ rfl
  induction ops with
  | nil => intro s hs; exact hs
  | cons op rest ih => intro s hs; exact ih _ (applyAccOp_additivity s op hs)


-- ========================= Sequential pattern: lemmas =========================

theorem runAgentWithRetry_fst (wk : Worker) (opts : RunnerOptions) (now : Int) (sm : SM)
    (agentId prompt : String) (agent : AgentConfig) (hreg : getAgent agentId = some agent) :
    (runAgentWithRetry wk opts now sm agentId prompt 0).1 = retryResult wk opts agent prompt := by
  unfold runAgentWithRetry retryResult
  rw [Nat.sub_zero]
  exact runAgentWithRetryGas_fst wk now agentId agent hreg opts.maxRetries sm prompt 0

theorem wfStatus_update (sm : SM) (workflowId : String) (ws : WorkflowState) :
    wfStatus (sm.updateWorkflowState workflowId ws) workflowId = some ws.status := by
  simp [wfStatus, SM.updateWorkflowState, objGet_objSet_self]

theorem seqStep_stall (wk : Worker) (opts : RunnerOptions) (now : Int) (initialPrompt : String)
    (acc : SeqAcc) (step : WorkflowStep) (h : acc.err.isSome) :
    seqStep wk opts now initialPrompt acc step = acc := by
  simp [seqStep, h]

theorem runSeq_stall (wk : Worker) (opts : RunnerOptions) (now : Int) (initialPrompt : String) :
    ∀ (steps : List WorkflowStep) (acc : SeqAcc), acc.err.isSome →
      runSeq wk opts now initialPrompt steps acc = acc := by
  intro steps
  induction steps with
  | nil => intro acc h; rfl
  | cons step rest ih =>
    intro acc h
    show runSeq wk opts now initialPrompt rest (seqStep wk opts now initialPrompt acc step) = acc
    rw [seqStep_stall wk opts now initialPrompt acc step h]
    exact ih acc h

theorem seqStep_missing (wk : Worker) (opts : RunnerOptions) (now : Int) (initialPrompt : String)
    (acc : SeqAcc) (step : WorkflowStep) (herr : acc.err = none)
    (hga : getAgent step.agentId = none) :
    seqStep wk opts now initialPrompt acc step = acc := by
  simp [seqStep, herr, hga]

theorem seqStep_found (wk : Worker) (opts : RunnerOptions) (now : Int) (initialPrompt : String)
    (acc : SeqAcc) (step : WorkflowStep) (agent : AgentConfig) (herr : acc.err = none)
    (hga : getAgent step.agentId = some agent) :
    seqStep wk opts now initialPrompt acc step =
      (let contextPrompt := chainPrompt acc.currentPrompt acc.prevOutputs
       let out := runAgentWithRetry wk opts now acc.sm step.agentId contextPrompt 0
       if out.1.success then
        { outputs := objSet acc.outputs step.agentId out.1.output
          prevOutputs := objSet acc.prevOutputs agent.name out.1.output
          currentPrompt := jsOr step.input initialPrompt
          sm := out.2.1
          runs := acc.runs ++ [⟨step.agentId, contextPrompt, out.1⟩]
          err := none }
       else
        { acc with
          sm := out.2.1
          runs := acc.runs ++ [⟨step.agentId, contextPrompt, out.1⟩]
          err := some ("Agent " ++ step.agentId ++ " failed: " ++ jsShow out.1.error) }) := by
  rw [seqStep, herr, hga]
  simp

-- ========================= C1: spec-side description and claims =========================

/-- Reference description of the sequential pattern's effective prompts (the
amended C1): walking the step list with a running base prompt `base` (initially
the workflow's initial prompt) and the display-name-keyed map `priorOutputs` of
prior successful outputs, a step without a profile is skipped; an executed step
is sent `chainPrompt base priorOutputs` (the base prompt, with the fenced
context block appended once any prior output exists); after a successful step the
base prompt becomes that step's own explicit input if it defines a non-empty
one, otherwise the initial prompt — so a step's explicit input only ever feeds
the *next* executed step; a failed step ends the walk. -/
def seqExpectedRuns (wk : Worker) (opts : RunnerOptions) (initialPrompt : String) :
    List WorkflowStep → String → List (String × String) → List StepRun
  | [], _, _ => []
  | step :: rest, base, priorOutputs =>
    match getAgent step.agentId with
    | none => seqExpectedRuns wk opts initialPrompt rest base priorOutputs
    | some agent =>
      let prompt := chainPrompt base priorOutputs
      let result := retryResult wk opts agent prompt
      if result.success then
        ⟨step.agentId, prompt, result⟩ ::
          seqExpectedRuns wk opts initialPrompt rest (jsOr step.input initialPrompt)
            (objSet priorOutputs agent.name result.output)
      else [⟨step.agentId, prompt, result⟩]

theorem runSeq_runs_spec (wk : Worker) (opts : RunnerOptions) (now : Int) (initialPrompt : String) :
    ∀ (steps : List WorkflowStep) (acc : SeqAcc), acc.err = none →
      (runSeq wk opts now initialPrompt steps acc).runs =
        acc.runs ++ seqExpectedRuns wk opts initialPrompt steps acc.currentPrompt acc.prevOutputs := by
  intro steps
  induction steps with
  | nil =>
    intro acc h
    rw [runSeq, seqExpectedRuns, List.append_nil]
  | cons step rest ih =>
    intro acc herr
    show (runSeq wk opts now initialPrompt rest (seqStep wk opts now initialPrompt acc step)).runs = _
    cases hga : getAgent step.agentId with
    | none =>
      rw [seqStep_missing wk opts now initialPrompt acc step herr hga, ih acc herr]
      conv_rhs => rw [seqExpectedRuns, hga]
    | some agent =>
      rw [seqStep_found wk opts now initialPrompt acc step agent herr hga]
      have hfst := runAgentWithRetry_fst wk opts now acc.sm step.agentId
        (chainPrompt acc.currentPrompt acc.prevOutputs) agent hga
      by_cases hsucc :
          (retryResult wk opts agent (chainPrompt acc.currentPrompt acc.prevOutputs)).success = true
      · simp only [hfst, hsucc, reduceIte]
        rw [ih _ rfl]
        conv_rhs => rw [seqExpectedRuns, hga]
        simp only [hsucc, reduceIte]
        rw [List.append_assoc]
        rfl
      · simp only [Bool.not_eq_true] at hsucc
        simp only [hfst, hsucc, Bool.false_eq_true, if_false]
        rw [runSeq_stall wk opts now initialPrompt rest
          { acc with
            sm := (runAgentWithRetry wk opts now acc.sm step.agentId
              (chainPrompt acc.currentPrompt acc.prevOutputs) 0).2.1
            runs := acc.runs ++ [⟨step.agentId, chainPrompt acc.currentPrompt acc.prevOutputs,
              retryResult wk opts agent (chainPrompt acc.currentPrompt acc.prevOutputs)⟩]
            err := some ("Agent " ++ step.agentId ++ " failed: " ++
              jsShow (retryResult wk opts agent (chainPrompt acc.currentPrompt acc.prevOutputs)).error) }
          rfl]
        conv_rhs => rw [seqExpectedRuns, hga]
        simp only [hsucc, Bool.false_eq_true, if_false]

def wfC1 : Workflow :=
  { id := "w1", name := "W1", pattern := .sequential
    steps := [{ agentId := "planner", input := some "X" }] }

/-- C1 counterexample: in a one-step sequential workflow whose step defines the
explicit input `"X"`, the effective prompt sent to that step is the workflow's
initial prompt `"INIT"`, not the step's own explicit input — refuting the claim
that a step's own explicit input text is used as its effective prompt. -/
theorem seq_step_own_input_unused_counterexample :
    wfC1.steps = [{ agentId := "planner", input := some "X" }] ∧
    (execute okWorker opts0 0 emptySM wfC1 "INIT").runs.map (fun r => (r.agentId, r.prompt)) =
      [("planner", "INIT")] ∧
    ("INIT" : String) ≠ "X" := by
  refine ⟨rfl, by decide, by decide⟩

/-- C1 amended: the step-level invocations of the sequential pattern are exactly
described by `seqExpectedRuns`: the first executed step's effective prompt is
the workflow's initial prompt (its own explicit input is ignored); each later
executed step's base prompt is the explicit input of the most recent previously
executed step if that step defined a non-empty one, otherwise the initial
prompt; whenever at least one prior step produced output, the context block
listing prior agents' outputs (keyed by display name, each fenced) is appended
to the base prompt; the preceding step's raw output is never substituted as the
next step's primary instruction. -/
theorem seq_effective_prompt_characterization (wk : Worker) (opts : RunnerOptions) (now : Int)
    (sm : SM) (steps : List WorkflowStep) (initialPrompt : String) :
    (executeSequential wk opts now sm steps initialPrompt).runs =
      seqExpectedRuns wk opts initialPrompt steps initialPrompt [] :=
  runSeq_runs_spec wk opts now initialPrompt steps ⟨[], [], initialPrompt, sm, [], none⟩ rfl

-- ========================= C2: sequential failure aborts =========================

/-- The run list of a sequential accumulator is well-formed: with no recorded
error every run succeeded; with a recorded error the failing run is last and
every earlier run succeeded. -/
def seqRunsOk (acc : SeqAcc) : Prop :=
  match acc.err with
  | none => ∀ r ∈ acc.runs, r.result.success = true
  | some _ => ∃ rs r, acc.runs = rs ++ [r] ∧ (∀ x ∈ rs, x.result.success = true) ∧
      r.result.success = false

theorem seqStep_runsOk (wk : Worker) (opts : RunnerOptions) (now : Int) (initialPrompt : String)
    (acc : SeqAcc) (step : WorkflowStep) (h : seqRunsOk acc) :
    seqRunsOk (seqStep wk opts now initialPrompt acc step) := by
  cases herr : acc.err with
  | some e =>
    rw [seqStep_stall wk opts now initialPrompt acc step (by rw [herr]; rfl)]
    exact h
  | none =>
    simp only [seqRunsOk, herr] at h
    cases hga : getAgent step.agentId with
    | none =>
      rw [seqStep_missing wk opts now initialPrompt acc step herr hga]
      simp only [seqRunsOk, herr]
      exact h
    | some agent =>
      rw [seqStep_found wk opts now initialPrompt acc step agent herr hga]
      by_cases hsucc :
          (runAgentWithRetry wk opts now acc.sm step.agentId
            (chainPrompt acc.currentPrompt acc.prevOutputs) 0).1.success = true
      · simp only [hsucc, reduceIte, seqRunsOk]
        intro r hr
        rcases List.mem_append.mp hr with hr | hr
        · exact h r hr
        · rw [List.mem_singleton.mp hr]
          exact hsucc
      · simp only [Bool.not_eq_true] at hsucc
        simp only [hsucc, Bool.false_eq_true, if_false, seqRunsOk]
        exact ⟨acc.runs, _, rfl, h, hsucc⟩

theorem runSeq_runsOk (wk : Worker) (opts : RunnerOptions) (now : Int) (initialPrompt : String) :
    ∀ (steps : List WorkflowStep) (acc : SeqAcc), seqRunsOk acc →
      seqRunsOk (runSeq wk opts now initialPrompt steps acc) := by
  intro steps
  induction steps with
  | nil => intro acc h; exact h
  | cons step rest ih =>
    intro acc h
    exact ih _ (seqStep_runsOk wk opts now initialPrompt acc step h)

/-- Unfolding of `execute` specialised to a sequential workflow. -/
theorem execute_seq_eq (wk : Worker) (opts : RunnerOptions) (now : Int) (sm : SM)
    (wf : Workflow) (initialPrompt : String) (hpat : wf.pattern = .sequential) :
    execute wk opts now sm wf initialPrompt =
      (let acc := executeSequential wk opts now
        (sm.updateWorkflowState wf.id (initialWorkflowState wf.id now)) wf.steps initialPrompt
       match acc.err with
       | none =>
         { thrown := none, outputs := acc.outputs
           sm := acc.sm.updateWorkflowState wf.id
             { initialWorkflowState wf.id now with status := .completed, endTime := some now }
           runs := acc.runs, aggRun := none }
       | some e =>
         { thrown := some e, outputs := acc.outputs
           sm := acc.sm.updateWorkflowState wf.id
             { initialWorkflowState wf.id now with status := .error, endTime := some now }
           runs := acc.runs, aggRun := none }) := by
  rw [execute, hpat]

/-- C2: in the sequential pattern, if the final (post-retry) result of some step
invocation is a failure, then that invocation is the last one performed (no
later step is ever invoked), the failure propagates to the caller as a thrown
error, and the workflow's execution state ends with status `error`. -/
theorem seq_failure_aborts (wk : Worker) (opts : RunnerOptions) (now : Int) (sm : SM)
    (wf : Workflow) (initialPrompt : String) (out : ExecOutcome) (j : Nat) (r : StepRun)
    (hout : out = execute wk opts now sm wf initialPrompt)
    (hpat : wf.pattern = .sequential)
    (hr : out.runs[j]? = some r)
    (hfail : r.result.success = false) :
    out.runs.length = j + 1 ∧ out.thrown.isSome = true ∧
      wfStatus out.sm wf.id = some .error := by
  subst hout
  have hok : seqRunsOk (executeSequential wk opts now
      (sm.updateWorkflowState wf.id (initialWorkflowState wf.id now)) wf.steps initialPrompt) :=
    runSeq_runsOk wk opts now initialPrompt wf.steps _ (by intro x hx; cases hx)
  rw [execute_seq_eq wk opts now sm wf initialPrompt hpat] at hr ⊢
  cases herr : (executeSequential wk opts now
      (sm.updateWorkflowState wf.id (initialWorkflowState wf.id now)) wf.steps initialPrompt).err with
  | none =>
    exfalso
    simp only [seqRunsOk, herr] at hok
    simp only [herr] at hr
    obtain ⟨hjlt, rfl⟩ := List.getElem?_eq_some.mp hr
    exact absurd (hok _ (List.getElem_mem hjlt)) (by rw [hfail]; decide)
  | some e =>
    simp only [seqRunsOk, herr] at hok
    simp only [herr] at hr ⊢
    obtain ⟨rs, rLast, hruns, hall, hrfail⟩ := hok
    rw [hruns] at hr
    have hjlen : j < rs.length + 1 := by
      have := (List.getElem?_eq_some.mp hr).1
      simpa using this
    have hjr : j = rs.length := by
      by_contra hne
      have hjlt : j < rs.length := by omega
      rw [List.getElem?_append, if_pos hjlt] at hr
      obtain ⟨hlt2, rfl⟩ := List.getElem?_eq_some.mp hr
      exact absurd (hall _ (List.getElem_mem hlt2)) (by rw [hfail]; decide)
    refine ⟨?_, rfl, ?_⟩
    · rw [hruns]
      simp [hjr]
    · rw [wfStatus_update]

def wf3seq : Workflow :=
  { id := "w3", name := "W3", pattern := .sequential
    steps := [{ agentId := "planner" }, { agentId := "implementer" }, { agentId := "tester" }] }

theorem seq_failure_aborts_witness :
    (execute failImplWorker opts0 0 emptySM wf3seq "INIT").runs.length = 2 ∧
    (execute failImplWorker opts0 0 emptySM wf3seq "INIT").thrown.isSome = true ∧
    wfStatus (execute failImplWorker opts0 0 emptySM wf3seq "INIT").sm "w3" = some .error := by
  have h := seq_failure_aborts failImplWorker opts0 0 emptySM wf3seq "INIT"
    (execute failImplWorker opts0 0 emptySM wf3seq "INIT") 1
    ⟨"implementer", chainPrompt "INIT" [("Planner", "OUT")],
      { success := false, output := "", error := some "boom" }⟩
    rfl rfl (by decide) rfl
  exact h

-- ========================= C10: missing profile is silently skipped =========================

theorem runSeq_missing_not_run (wk : Worker) (opts : RunnerOptions) (now : Int)
    (initialPrompt sid : String) (hmiss : getAgent sid = none) :
    ∀ (steps : List WorkflowStep) (acc : SeqAcc), (∀ r ∈ acc.runs, r.agentId ≠ sid) →
      ∀ r ∈ (runSeq wk opts now initialPrompt steps acc).runs, r.agentId ≠ sid := by
  intro steps
  induction steps with
  | nil => intro acc h; exact h
  | cons step rest ih =>
    intro acc h
    apply ih
    cases herr : acc.err with
    | some e =>
      rw [seqStep_stall wk opts now initialPrompt acc step (by rw [herr]; rfl)]
      exact h
    | none =>
      cases hga : getAgent step.agentId with
      | none =>
        rw [seqStep_missing wk opts now initialPrompt acc step herr hga]
        exact h
      | some agent =>
        have hne : step.agentId ≠ sid := by
          intro heq
          rw [heq, hmiss] at hga
          cases hga
        rw [seqStep_found wk opts now initialPrompt acc step agent herr hga]
        by_cases hsucc : (runAgentWithRetry wk opts now acc.sm step.agentId
            (chainPrompt acc.currentPrompt acc.prevOutputs) 0).1.success = true
        · simp only [hsucc, reduceIte]
          intro r hr
          rcases List.mem_append.mp hr with hr | hr
          · exact h r hr
          · rw [List.mem_singleton.mp hr]
            exact hne
        · simp only [Bool.not_eq_true] at hsucc
          simp only [hsucc, Bool.false_eq_true, if_false]
          intro r hr
          rcases List.mem_append.mp hr with hr | hr
          · exact h r hr
          · rw [List.mem_singleton.mp hr]
            exact hne

theorem runSeq_missing_no_output (wk : Worker) (opts : RunnerOptions) (now : Int)
    (initialPrompt sid : String) (hmiss : getAgent sid = none) :
    ∀ (steps : List WorkflowStep) (acc : SeqAcc), objGet acc.outputs sid = none →
      objGet (runSeq wk opts now initialPrompt steps acc).outputs sid = none := by
  intro steps
  induction steps with
  | nil => intro acc h; exact h
  | cons step rest ih =>
    intro acc h
    apply ih
    cases herr : acc.err with
    | some e =>
      rw [seqStep_stall wk opts now initialPrompt acc step (by rw [herr]; rfl)]
      exact h
    | none =>
      cases hga : getAgent step.agentId with
      | none =>
        rw [seqStep_missing wk opts now initialPrompt acc step herr hga]
        exact h
      | some agent =>
        have hne : sid ≠ step.agentId := by
          intro heq
          rw [← heq, hmiss] at hga
          cases hga
        rw [seqStep_found wk opts now initialPrompt acc step agent herr hga]
        by_cases hsucc : (runAgentWithRetry wk opts now acc.sm step.agentId
            (chainPrompt acc.currentPrompt acc.prevOutputs) 0).1.success = true
        · simp only [hsucc, reduceIte]
          rw [objGet_objSet_ne _ _ _ _ hne]
          exact h
        · simp only [Bool.not_eq_true] at hsucc
          simp only [hsucc, Bool.false_eq_true, if_false]
          exact h

theorem runSeq_err_none_all_success (wk : Worker) (opts : RunnerOptions) (now : Int)
    (initialPrompt : String) (hwk : ∀ a p, (wk a p).success = true) :
    ∀ (steps : List WorkflowStep) (acc : SeqAcc), acc.err = none →
      (runSeq wk opts now initialPrompt steps acc).err = none := by
  intro steps
  induction steps with
  | nil => intro acc h; exact h
  | cons step rest ih =>
    intro acc herr
    apply ih
    cases hga : getAgent step.agentId with
    | none =>
      rw [seqStep_missing wk opts now initialPrompt acc step herr hga]
      exact herr
    | some agent =>
      have hfst := runAgentWithRetry_fst wk opts now acc.sm step.agentId
        (chainPrompt acc.currentPrompt acc.prevOutputs) agent hga
      have hsucc : (runAgentWithRetry wk opts now acc.sm step.agentId
          (chainPrompt acc.currentPrompt acc.prevOutputs) 0).1.success = true := by
        rw [hfst]
        unfold retryResult
        rw [retryResultGas_of_success wk opts.maxRetries agent _ 0 (hwk agent _)]
        exact hwk agent _
      rw [seqStep_found wk opts now initialPrompt acc step agent herr hga]
      simp only [hsucc, reduceIte]

/-- C10: in the sequential pattern, a step whose role has no registered agent
profile is silently skipped: the task runner is never invoked for that role, no
output-map entry is created for it, no error is raised because of it, and (with
every profiled step succeeding) the workflow still ends `completed` — a missing
profile is not treated as a step failure. -/
theorem seq_missing_profile_skipped (wk : Worker) (opts : RunnerOptions) (now : Int) (sm : SM)
    (wf : Workflow) (initialPrompt : String) (out : ExecOutcome) (sid : String)
    (hout : out = execute wk opts now sm wf initialPrompt)
    (hpat : wf.pattern = .sequential)
    (hmiss : getAgent sid = none)
    (hwk : ∀ a p, (wk a p).success = true) :
    (∀ r ∈ out.runs, r.agentId ≠ sid) ∧ objGet out.outputs sid = none ∧
      out.thrown = none ∧ wfStatus out.sm wf.id = some .completed := by
  subst hout
  rw [execute_seq_eq wk opts now sm wf initialPrompt hpat]
  have herr : (executeSequential wk opts now
      (sm.updateWorkflowState wf.id (initialWorkflowState wf.id now)) wf.steps initialPrompt).err
        = none :=
    runSeq_err_none_all_success wk opts now initialPrompt hwk wf.steps
      (seqInitAcc (sm.updateWorkflowState wf.id (initialWorkflowState wf.id now)) initialPrompt) rfl
  simp only [herr]
  refine ⟨?_, ?_, by trivial, ?_⟩
  · exact runSeq_missing_not_run wk opts now initialPrompt sid hmiss wf.steps
      (seqInitAcc (sm.updateWorkflowState wf.id (initialWorkflowState wf.id now)) initialPrompt)
      (by intro x hx; cases hx)
  · exact runSeq_missing_no_output wk opts now initialPrompt sid hmiss wf.steps
      (seqInitAcc (sm.updateWorkflowState wf.id (initialWorkflowState wf.id now)) initialPrompt) rfl
  · rw [wfStatus_update]

def wfGhost : Workflow :=
  { id := "wg", name := "WG", pattern := .sequential
    steps := [{ agentId := "planner" }, { agentId := "ghost" }, { agentId := "tester" }] }

theorem seq_missing_profile_skipped_witness :
    objGet (execute okWorker opts0 0 emptySM wfGhost "INIT").outputs "ghost" = none ∧
    (execute okWorker opts0 0 emptySM wfGhost "INIT").thrown = none ∧
    wfStatus (execute okWorker opts0 0 emptySM wfGhost "INIT").sm "wg" = some .completed ∧
    (execute okWorker opts0 0 emptySM wfGhost "INIT").runs.map (fun r => r.agentId) =
      ["planner", "tester"] := by
  have h := seq_missing_profile_skipped okWorker opts0 0 emptySM wfGhost "INIT"
    (execute okWorker opts0 0 emptySM wfGhost "INIT") "ghost" rfl rfl rfl (fun _ _ => rfl)
  exact ⟨h.2.1, h.2.2.1, h.2.2.2, by decide⟩


-- ========================= Parallel pattern: lemmas and C3 =========================

theorem parRuns_ids (wk : Worker) (opts : RunnerOptions) (now : Int) (initialPrompt : String) :
    ∀ (steps : List WorkflowStep) (sm : SM),
      (parRuns wk opts now initialPrompt steps sm).1.map StepRun.agentId =
        steps.map WorkflowStep.agentId := by
  intro steps
  induction steps with
  | nil => intro sm; rfl
  | cons step rest ih =>
    intro sm
    rw [parRuns]
    simp only [List.map_cons]
    rw [ih]

theorem collectOutputs_notin (sid : String) :
    ∀ (runs : List StepRun) (acc : List (String × String)), (∀ r ∈ runs, r.agentId ≠ sid) →
      objGet (collectOutputs runs acc) sid = objGet acc sid := by
  intro runs
  induction runs with
  | nil => intro acc h; rfl
  | cons r rest ih =>
    intro acc h
    rw [collectOutputs]
    rw [ih _ (fun x hx => h x (List.mem_cons_of_mem r hx))]
    by_cases hs : r.result.success = true
    · simp only [hs, reduceIte]
      exact objGet_objSet_ne _ _ _ _ (Ne.symm (h r (List.mem_cons_self r rest)))
    · simp only [Bool.not_eq_true] at hs
      simp only [hs, Bool.false_eq_true, if_false]

theorem collectOutputs_append :
    ∀ (l₁ l₂ : List StepRun) (acc : List (String × String)),
      collectOutputs (l₁ ++ l₂) acc = collectOutputs l₂ (collectOutputs l₁ acc) := by
  intro l₁
  induction l₁ with
  | nil => intro l₂ acc; rfl
  | cons r rest ih =>
    intro l₂ acc
    rw [List.cons_append, collectOutputs, collectOutputs, ih]

/-- In a parallel run list with pairwise-distinct roles, a step's role is in the
output map with its output exactly when its result succeeded. -/
theorem collectOutputs_lookup (runs : List StepRun) (r : StepRun)
    (hmem : r ∈ runs) (hnd : (runs.map StepRun.agentId).Nodup) :
    objGet (collectOutputs runs []) r.agentId =
      if r.result.success = true then some r.result.output else none := by
  obtain ⟨l₁, l₂, rfl⟩ := List.append_of_mem hmem
  rw [List.map_append, List.map_cons, List.nodup_middle, List.nodup_cons] at hnd
  have hnotin := hnd.1
  rw [List.mem_append] at hnotin
  have h1 : ∀ x ∈ l₁, x.agentId ≠ r.agentId := by
    intro x hx heq
    exact hnotin (Or.inl (heq ▸ List.mem_map_of_mem StepRun.agentId hx))
  have h2 : ∀ x ∈ l₂, x.agentId ≠ r.agentId := by
    intro x hx heq
    exact hnotin (Or.inr (heq ▸ List.mem_map_of_mem StepRun.agentId hx))
  rw [collectOutputs_append, collectOutputs, collectOutputs_notin _ _ _ h2]
  by_cases hs : r.result.success = true
  · simp only [hs, reduceIte]
    exact objGet_objSet_self _ _ _
  · simp only [Bool.not_eq_true] at hs
    simp only [hs, Bool.false_eq_true, if_false]
    rw [collectOutputs_notin _ _ _ h1]
    rfl

/-- Unfolding of `execute` specialised to a parallel workflow. -/
theorem execute_par_eq (wk : Worker) (opts : RunnerOptions) (now : Int) (sm : SM)
    (wf : Workflow) (initialPrompt : String) (hpat : wf.pattern = .parallel) :
    execute wk opts now sm wf initialPrompt =
      (let r := executeParallel wk opts now
        (sm.updateWorkflowState wf.id (initialWorkflowState wf.id now)) wf.steps initialPrompt
       { thrown := none, outputs := r.1
         sm := r.2.1.updateWorkflowState wf.id
           { initialWorkflowState wf.id now with status := .completed, endTime := some now }
         runs := r.2.2, aggRun := none }) := by
  rw [execute, hpat]

/-- C3: in the parallel pattern no individual step failure propagates to the
caller and the workflow ends `completed`; every step is invoked exactly once (in
list order), a step whose final result succeeded appears in the output map with
its output, and a step whose final result failed is absent from the map. -/
theorem parallel_failures_omitted (wk : Worker) (opts : RunnerOptions) (now : Int) (sm : SM)
    (wf : Workflow) (initialPrompt : String) (out : ExecOutcome)
    (hout : out = execute wk opts now sm wf initialPrompt)
    (hpat : wf.pattern = .parallel)
    (hnd : (wf.steps.map WorkflowStep.agentId).Nodup) :
    out.thrown = none ∧ wfStatus out.sm wf.id = some .completed ∧
    out.runs.map StepRun.agentId = wf.steps.map WorkflowStep.agentId ∧
    ∀ r ∈ out.runs,
      (r.result.success = true → objGet out.outputs r.agentId = some r.result.output) ∧
      (r.result.success = false → objGet out.outputs r.agentId = none) := by
  subst hout
  rw [execute_par_eq wk opts now sm wf initialPrompt hpat]
  simp only [executeParallel]
  have hids := parRuns_ids wk opts now initialPrompt wf.steps
    (sm.updateWorkflowState wf.id (initialWorkflowState wf.id now))
  refine ⟨by trivial, by rw [wfStatus_update], hids, ?_⟩
  intro r hr
  have hnd2 : ((parRuns wk opts now initialPrompt wf.steps
      (sm.updateWorkflowState wf.id (initialWorkflowState wf.id now))).1.map StepRun.agentId).Nodup := by
    rw [hids]
    exact hnd
  have hl := collectOutputs_lookup _ r hr hnd2
  constructor
  · intro hs
    rw [hl, if_pos hs]
  · intro hs
    rw [hl, if_neg (by rw [hs]; decide)]

def wf3par : Workflow :=
  { id := "wp", name := "WP", pattern := .parallel
    steps := [{ agentId := "planner" }, { agentId := "implementer" }, { agentId := "tester" }] }

theorem parallel_failures_omitted_witness :
    (execute failImplWorker opts0 0 emptySM wf3par "INIT").thrown = none ∧
    wfStatus (execute failImplWorker opts0 0 emptySM wf3par "INIT").sm "wp" = some .completed ∧
    objGet (execute failImplWorker opts0 0 emptySM wf3par "INIT").outputs "implementer" = none ∧
    (execute failImplWorker opts0 0 emptySM wf3par "INIT").outputs =
      [("planner", "OUT"), ("tester", "OUT")] := by
  have h := parallel_failures_omitted failImplWorker opts0 0 emptySM wf3par "INIT"
    (execute failImplWorker opts0 0 emptySM wf3par "INIT") rfl rfl (by decide)
  have hr := h.2.2.2 ⟨"implementer", "INIT", { success := false, output := "", error := some "boom" }⟩
    (by decide)
  exact ⟨h.1, h.2.1, hr.2 rfl, by decide⟩

-- ========================= Fan-out pattern: lemmas and C4 =========================

theorem collectOutputs_all_fail :
    ∀ (runs : List StepRun) (acc : List (String × String)),
      (∀ r ∈ runs, r.result.success = false) → collectOutputs runs acc = acc := by
  intro runs
  induction runs with
  | nil => intro acc h; rfl
  | cons r rest ih =>
    intro acc h
    rw [collectOutputs]
    have hr := h r (List.mem_cons_self r rest)
    simp only [hr, Bool.false_eq_true, if_false]
    exact ih _ (fun x hx => h x (List.mem_cons_of_mem r hx))

theorem objSet_length_pos {α : Type} (l : List (String × α)) (k : String) (v : α) :
    0 < (objSet l k v).length := by
  cases l with
  | nil => simp [objSet]
  | cons p rest =>
    by_cases h : p.1 = k <;> simp [objSet, h]

theorem collectOutputs_length_mono :
    ∀ (runs : List StepRun) (acc : List (String × String)),
      acc.length ≤ (collectOutputs runs acc).length := by
  intro runs
  induction runs with
  | nil => intro acc; exact Nat.le_refl _
  | cons r rest ih =>
    intro acc
    rw [collectOutputs]
    by_cases hs : r.result.success = true
    · simp only [hs, reduceIte]
      exact Nat.le_trans (length_le_objSet acc r.agentId r.result.output) (ih _)
    · simp only [Bool.not_eq_true] at hs
      simp only [hs, Bool.false_eq_true, if_false]
      exact ih acc

theorem collectOutputs_pos_iff (runs : List StepRun) :
    0 < (collectOutputs runs []).length ↔ ∃ r ∈ runs, r.result.success = true := by
  constructor
  · intro hpos
    by_contra hno
    push_neg at hno
    have hall : ∀ r ∈ runs, r.result.success = false := by
      intro r hr
      have := hno r hr
      cases hsr : r.result.success with
      | false => rfl
      | true => exact absurd hsr this
    rw [collectOutputs_all_fail runs [] hall] at hpos
    exact absurd hpos (by decide)
  · intro ⟨r, hmem, hs⟩
    obtain ⟨l₁, l₂, rfl⟩ := List.append_of_mem hmem
    rw [collectOutputs_append, collectOutputs]
    simp only [hs, reduceIte]
    exact Nat.lt_of_lt_of_le
      (objSet_length_pos (collectOutputs l₁ []) r.agentId r.result.output)
      (collectOutputs_length_mono l₂ _)

theorem strContains_buildAggregationPrompt (allOutputs : List (String × String))
    (originalTask : String) :
    strContains originalTask (buildAggregationPrompt allOutputs originalTask) ∧
    ∀ kv ∈ allOutputs, strContains kv.2 (buildAggregationPrompt allOutputs originalTask) := by
  constructor
  · have h1 : strContains originalTask ("\n**Original Request:** " ++ originalTask) :=
      ⟨"\n**Original Request:** ", "", by rw [String.append_empty]⟩
    have h2 : strContains ("\n**Original Request:** " ++ originalTask)
        (buildAggregationPrompt allOutputs originalTask) :=
      strContains_joinNL_of_mem _ _ (by simp [List.mem_append])
    exact strContains_trans _ _ _ h1 h2
  · intro kv hkv
    refine strContains_joinNL_of_mem _ _ ?_
    have hmemflat : kv.2 ∈ (allOutputs.map
        (fun p => ["\n## From " ++ p.1 ++ ":", "```", p.2, "```"])).flatten :=
      List.mem_flatten.mpr ⟨_, List.mem_map_of_mem _ hkv, by simp⟩
    exact List.mem_append.mpr (Or.inl (List.mem_append.mpr (Or.inr hmemflat)))

/-- Unfolding of `execute` specialised to a fan-out workflow. -/
theorem execute_fan_eq (wk : Worker) (opts : RunnerOptions) (now : Int) (sm : SM)
    (wf : Workflow) (initialPrompt : String) (hpat : wf.pattern = .fanOut) :
    execute wk opts now sm wf initialPrompt =
      (let r := executeFanOut wk opts now
        (sm.updateWorkflowState wf.id (initialWorkflowState wf.id now)) wf.steps initialPrompt
       { thrown := none, outputs := r.1
         sm := r.2.1.updateWorkflowState wf.id
           { initialWorkflowState wf.id now with status := .completed, endTime := some now }
         runs := r.2.2.1, aggRun := r.2.2.2 }) := by
  rw [execute, hpat]

/-- C4: in the fan-out pattern, aggregator-role steps are excluded from the
fanned-out phase (the performed step invocations are exactly the non-aggregator
steps, in order); the aggregator is invoked exactly when at least one
non-aggregator step succeeded; the prompt it receives contains the original
initial prompt and every collected successful output verbatim; and if no
non-aggregator step succeeded, the aggregator is never invoked and the returned
output map is empty. -/
theorem fanout_aggregator_behavior (wk : Worker) (opts : RunnerOptions) (now : Int) (sm : SM)
    (wf : Workflow) (initialPrompt : String) (out : ExecOutcome)
    (hout : out = execute wk opts now sm wf initialPrompt)
    (hpat : wf.pattern = .fanOut) :
    out.runs.map StepRun.agentId =
      (wf.steps.filter (fun s => s.agentId != "aggregator")).map WorkflowStep.agentId ∧
    (out.aggRun.isSome = true ↔ ∃ r ∈ out.runs, r.result.success = true) ∧
    (∀ p res, out.aggRun = some (p, res) →
      strContains initialPrompt p ∧
      ∀ kv ∈ collectOutputs out.runs [], strContains kv.2 p) ∧
    ((∀ r ∈ out.runs, r.result.success = false) → out.outputs = [] ∧ out.aggRun = none) := by
  subst hout
  rw [execute_fan_eq wk opts now sm wf initialPrompt hpat]
  simp only [executeFanOut]
  by_cases hpos : 0 < (collectOutputs (parRuns wk opts now initialPrompt
      (wf.steps.filter (fun s => s.agentId != "aggregator"))
      (sm.updateWorkflowState wf.id (initialWorkflowState wf.id now))).1 []).length
  · simp only [if_pos hpos]
    refine ⟨parRuns_ids wk opts now initialPrompt _ _, ?_, ?_, ?_⟩
    · simp only [Option.isSome_some, true_iff]
      exact (collectOutputs_pos_iff _).mp hpos
    · intro p res hp
      injection hp with hp1
      have hpeq : p = buildAggregationPrompt (collectOutputs (parRuns wk opts now initialPrompt
          (wf.steps.filter (fun s => s.agentId != "aggregator"))
          (sm.updateWorkflowState wf.id (initialWorkflowState wf.id now))).1 []) initialPrompt :=
        (congrArg Prod.fst hp1).symm
      subst hpeq
      exact ⟨(strContains_buildAggregationPrompt _ _).1,
        fun kv hkv => (strContains_buildAggregationPrompt _ _).2 kv hkv⟩
    · intro hall
      exfalso
      rw [collectOutputs_all_fail _ [] hall] at hpos
      exact absurd hpos (by decide)
  · simp only [if_neg hpos]
    refine ⟨parRuns_ids wk opts now initialPrompt _ _, ?_, ?_, ?_⟩
    · simp only [Option.isSome_none, Bool.false_eq_true, false_iff]
      intro hex
      exact hpos ((collectOutputs_pos_iff _).mpr hex)
    · intro p res hp
      cases hp
    · intro hall
      exact ⟨collectOutputs_all_fail _ [] hall, trivial⟩

def wfFan : Workflow :=
  { id := "wf", name := "WF", pattern := .fanOut
    steps := [{ agentId := "scout" }, { agentId := "security-auditor" }, { agentId := "aggregator" }] }

/-- The aggregator prompt recorded in an outcome (empty if no aggregation ran). -/
def aggPromptOf (out : ExecOutcome) : String := (out.aggRun.map Prod.fst).getD ""

set_option maxRecDepth 8192 in
theorem fanout_aggregator_behavior_witness :
    (execute taggedWorker opts0 0 emptySM wfFan "INIT").aggRun.isSome = true ∧
    strContains "INIT" (aggPromptOf (execute taggedWorker opts0 0 emptySM wfFan "INIT")) ∧
    strContains "OUT-scout" (aggPromptOf (execute taggedWorker opts0 0 emptySM wfFan "INIT")) ∧
    strContains "OUT-security-auditor"
      (aggPromptOf (execute taggedWorker opts0 0 emptySM wfFan "INIT")) ∧
    (execute alwaysFailWorker opts0 0 emptySM wfFan "INIT").outputs = [] ∧
    (execute alwaysFailWorker opts0 0 emptySM wfFan "INIT").aggRun = none := by
  have h := fanout_aggregator_behavior taggedWorker opts0 0 emptySM wfFan "INIT"
    (execute taggedWorker opts0 0 emptySM wfFan "INIT") rfl rfl
  have h2 := fanout_aggregator_behavior alwaysFailWorker opts0 0 emptySM wfFan "INIT"
    (execute alwaysFailWorker opts0 0 emptySM wfFan "INIT") rfl rfl
  have hsome : (execute taggedWorker opts0 0 emptySM wfFan "INIT").aggRun =
      some (aggPromptOf (execute taggedWorker opts0 0 emptySM wfFan "INIT"),
        { success := true, output := "OUT-aggregator" }) := by decide
  have hp := h.2.2.1 _ _ hsome
  have hk1 : (("scout", "OUT-scout") : String × String) ∈
      collectOutputs (execute taggedWorker opts0 0 emptySM wfFan "INIT").runs [] := by decide
  have hk2 : (("security-auditor", "OUT-security-auditor") : String × String) ∈
      collectOutputs (execute taggedWorker opts0 0 emptySM wfFan "INIT").runs [] := by decide
  have hfails := h2.2.2.2 (by decide)
  exact ⟨by rw [hsome]; rfl, hp.1, hp.2 _ hk1, hp.2 _ hk2, hfails.1, hfails.2⟩

end ClaudeKit
